import Mathlib

/-!
Verification of the Admin Authentication & Authorization core of the Lexiom
admin panel (Express server in `api/server.js`-style TypeScript).

The definitions below are a shallow embedding of the server's auth code:
the `POST /api/admin/login` handler, the `authenticateAdmin` and
`authorize` middleware, the `logAuditEvent` helper, and the success paths
of the state-changing handlers relevant to audit counting.

Modelling conventions:
* Timestamps are milliseconds since epoch (`Nat`); `new Date()` becomes an
  explicit `now : Nat` argument, `new Date(x) > new Date()` becomes `now < x`.
* The Supabase `admin_users` table is a `List AdminUser`; `.eq(col, v).single()`
  becomes `List.find?`.  Row updates map over the list by id.
* `NODE_ENV` is the three-valued `Env` (`development` stands for every value
  other than `"test"` and `"production"`).
* The bcrypt comparison and the otplib TOTP verification are external
  collaborators; the handler passes them data and branches on a `Bool`, so
  they are oracle parameters (`bcryptCompare`, `totpVerify`).  The code
  configures no TOTP window option; the oracle models whatever the library
  decides.
* A JWT is modelled as its decoded form: `jwt.sign(payload, key, 24h)`
  produces a `SignedToken` and `jwt.verify` succeeds exactly when the key
  matches and the token is unexpired; a string that is not a well-formed
  token at all is `TokenStr.malformed` (verification throws, caught as 401).
-/

inductive Env where
  | test
  | development
  | production
deriving DecidableEq, Repr

/-- A row of the `admin_users` table (the fields the auth core reads/writes). -/
structure AdminUser where
  id : String
  email : String
  password_hash : String
  full_name : String
  role_id : String
  is_super_admin : Bool
  is_active : Bool
  mfa_enabled : Bool
  mfa_secret : Option String
  failed_login_attempts : Nat
  locked_until : Option Nat
  last_login_at : Option Nat
deriving DecidableEq, Repr

/-- A row of the append-only `audit_logs` table, as inserted by `logAuditEvent`. -/
structure AuditEvent where
  user_id : String
  action : String
  resource_type : String
  resource_id : String
  old_values : Option (List (String × String))
  new_values : Option (List (String × String))
  ip_address : String
  user_agent : String
  created_at : Nat
deriving DecidableEq, Repr

/-- JS string-falsiness of an optional string argument (`undefined`, `null`
and `""` are falsy). -/
def jsStrFalsy : Option String → Bool
  | none => true
  | some s => s == ""

/-- `logAuditEvent(userId, action, resourceType, resourceId, oldValues?,
newValues?, ipAddress?, userAgent?)`: builds the inserted `audit_logs` row
(`ip_address`/`user_agent` default to `'unknown'`, `created_at` is now). -/
def logAuditEvent (userId action resourceType resourceId : String)
    (oldValues newValues : Option (List (String × String)))
    (ipAddress userAgent : Option String) (now : Nat) : AuditEvent :=
  { user_id := userId
    action := action
    resource_type := resourceType
    resource_id := resourceId
    old_values := oldValues
    new_values := newValues
    ip_address := if jsStrFalsy ipAddress then "unknown" else ipAddress.getD "unknown"
    user_agent := if jsStrFalsy userAgent then "unknown" else userAgent.getD "unknown"
    created_at := now }

/-- `const JWT_SECRET = process.env.JWT_SECRET || 'your-secret-key'`
(modelled at its default). -/
def JWT_SECRET : String := "your-secret-key"

/-- The object literal passed to `jwt.sign` by the login handler
(`{ userId: adminUser.id, email: adminUser.email }`): it has exactly these
two fields; in particular no super-admin flag is embedded. -/
structure JWTPayload where
  userId : String
  email : String
deriving DecidableEq, Repr

/-- A signed JWT in decoded form: payload, signing key, expiry timestamp. -/
structure SignedToken where
  payload : JWTPayload
  key : String
  exp : Nat
deriving DecidableEq, Repr

/-- `jwt.sign(payload, JWT_SECRET, { expiresIn: '24h' })`. -/
def jwtSign (key : String) (p : JWTPayload) (now : Nat) : SignedToken :=
  { payload := p, key := key, exp := now + 24 * 60 * 60 * 1000 }

/-- A bearer-token string as the verifier sees it: either not a decodable
token at all, or a decoded signed token. -/
inductive TokenStr where
  | malformed
  | signed (t : SignedToken)
deriving DecidableEq, Repr

/-- `jwt.verify(token, JWT_SECRET)`: `some payload` on success, `none` when
the library throws (malformed, wrong key, or expired). -/
def jwtVerify (key : String) (now : Nat) : TokenStr → Option JWTPayload
  | TokenStr.malformed => none
  | TokenStr.signed t => if t.key = key ∧ now < t.exp then some t.payload else none

/-- The token value the login handler may return: the canned `'test-token'`
string of the test shim, or a real signed JWT. -/
inductive TokenVal where
  | testToken
  | signed (t : SignedToken)
deriving DecidableEq, Repr

/-- Result of `POST /api/admin/login`: HTTP status, JSON `error` message if
any, token if any, the `admin_users` table after the handler's updates, and
the audit rows the handler inserted. -/
structure LoginOutcome where
  status : Nat
  errorMsg : Option String
  token : Option TokenVal
  store : List AdminUser
  audits : List AuditEvent
deriving DecidableEq, Repr

/-- `supabase.from('admin_users').update(f).eq('id', id)`. -/
def updateUser (store : List AdminUser) (id : String) (f : AdminUser → AdminUser) :
    List AdminUser :=
  store.map (fun u => if u.id = id then f u else u)

/-- `adminUser.locked_until && new Date(adminUser.locked_until) > new Date()`. -/
def lockedUntilFuture (u : AdminUser) (now : Nat) : Bool :=
  match u.locked_until with
  | none => false
  | some t => now < t

/-- The tail of the login handler after password (and MFA, if enabled)
checks pass: reset `failed_login_attempts` to 0, clear `locked_until`, set
`last_login_at`, sign the JWT over `{userId, email}`, insert one
`'admin_login'` audit row, respond 200. -/
def loginSuccess (now : Nat) (store : List AdminUser) (adminUser : AdminUser) :
    LoginOutcome :=
  { status := 200
    errorMsg := none
    token := some (TokenVal.signed
      (jwtSign JWT_SECRET { userId := adminUser.id, email := adminUser.email } now))
    store := updateUser store adminUser.id (fun u =>
      { u with failed_login_attempts := 0, locked_until := none,
               last_login_at := some now })
    audits := [logAuditEvent adminUser.id "admin_login" "admin_user" adminUser.id
      none none none none now] }

/-- The `POST /api/admin/login` handler.  `bcryptCompare password hash`
models `bcrypt.compare`; `totpVerify code secret` models
`authenticator.verify({ token: code, secret })` (no window option is
configured by the code). -/
def login (env : Env) (bcryptCompare : String → String → Bool)
    (totpVerify : String → Option String → Bool)
    (now : Nat) (store : List AdminUser)
    (email password : String) (totpCode : Option String) : LoginOutcome :=
  if env = Env.test then
    if email = "admin@test.com" ∧ password = "password123" then
      { status := 200, errorMsg := none, token := some TokenVal.testToken,
        store := store, audits := [] }
    else
      { status := 401, errorMsg := some "Invalid credentials", token := none,
        store := store, audits := [] }
  else
    match store.find? (fun u => u.email = email) with
    | none =>
      { status := 401, errorMsg := some "Invalid credentials", token := none,
        store := store, audits := [] }
    | some adminUser =>
      if lockedUntilFuture adminUser now then
        { status := 423, errorMsg := some "Account locked", token := none,
          store := store, audits := [] }
      else if ¬ bcryptCompare password adminUser.password_hash then
        let failedAttempts := adminUser.failed_login_attempts + 1
        { status := 401, errorMsg := some "Invalid credentials", token := none,
          store := updateUser store adminUser.id (fun u =>
            { u with failed_login_attempts := failedAttempts,
                     locked_until := if failedAttempts ≥ 5 then
                         some (now + 30 * 60 * 1000)
                       else u.locked_until })
          audits := [] }
      else if adminUser.mfa_enabled then
        if jsStrFalsy totpCode then
          { status := 400, errorMsg := some "MFA code required", token := none,
            store := store, audits := [] }
        else if ¬ totpVerify (totpCode.getD "") adminUser.mfa_secret then
          { status := 401, errorMsg := some "Invalid MFA code", token := none,
            store := store, audits := [] }
        else
          loginSuccess now store adminUser
      else
        loginSuccess now store adminUser

/-- The request-scoped `req.adminUser` object set by `authenticateAdmin`
(the fields the middleware and `authorize` read). -/
structure AdminCtx where
  id : String
  email : String
  role_id : Option String
  is_active : Bool
  is_super_admin : Bool
  full_name : Option String
deriving DecidableEq, Repr

/-- `req.adminUser = adminUser` where `adminUser` is the fetched DB row. -/
def ctxOfRow (u : AdminUser) : AdminCtx :=
  { id := u.id, email := u.email, role_id := some u.role_id,
    is_active := u.is_active, is_super_admin := u.is_super_admin,
    full_name := some u.full_name }

/-- The canned identity `authenticateAdmin` injects in non-test,
non-production environments when no token is supplied. -/
def devCtx : AdminCtx :=
  { id := "dev-user", email := "dev@local", role_id := some "super_admin",
    is_active := true, is_super_admin := true, full_name := some "Dev Admin" }

/-- The canned identity `authenticateAdmin` injects in the test environment
when a token is supplied. -/
def testCtx : AdminCtx :=
  { id := "1", email := "admin@test.com", role_id := some "super_admin",
    is_active := true, is_super_admin := true, full_name := some "Test Admin" }

/-- What a middleware does with the request: respond with an error, or call
`next()` with `req.adminUser` set. -/
inductive AuthResult where
  | reject (status : Nat) (errorMsg : String)
  | proceed (ctx : AdminCtx)
deriving DecidableEq, Repr

/-- Result of `authenticateAdmin` plus its observable store traffic:
`lookups` is the list of ids it queried in `admin_users` (empty iff no
identity lookup was attempted). -/
structure AuthOutcome where
  result : AuthResult
  lookups : List String
deriving DecidableEq, Repr

/-- The `authenticateAdmin` middleware.  `token` is
`req.get('authorization')?.split(' ')[1]` (absent header or header with no
second part ↦ `none`). -/
def authenticateAdmin (env : Env) (now : Nat) (store : List AdminUser)
    (token : Option TokenStr) : AuthOutcome :=
  match token with
  | none =>
    if env = Env.test then
      { result := AuthResult.reject 401 "No token provided", lookups := [] }
    else if env ≠ Env.production then
      { result := AuthResult.proceed devCtx, lookups := [] }
    else
      { result := AuthResult.reject 401 "No token provided", lookups := [] }
  | some tok =>
    if env = Env.test then
      { result := AuthResult.proceed testCtx, lookups := [] }
    else
      match jwtVerify JWT_SECRET now tok with
      | none => { result := AuthResult.reject 401 "Invalid token", lookups := [] }
      | some payload =>
        match store.find? (fun u => u.id = payload.userId) with
        | none =>
          { result := AuthResult.reject 401 "Invalid or inactive admin user",
            lookups := [payload.userId] }
        | some adminUser =>
          if ¬ adminUser.is_active then
            { result := AuthResult.reject 401 "Invalid or inactive admin user",
              lookups := [payload.userId] }
          else
            { result := AuthResult.proceed (ctxOfRow adminUser),
              lookups := [payload.userId] }

/-- Decision of the `authorize(permissions)` middleware. -/
inductive AuthzResult where
  | proceed
  | reject (status : Nat) (errorMsg : String)
deriving DecidableEq, Repr

/-- A row of the `role_permissions` table as the repository's own writers
create it (`POST /api/role-permissions` and the admin permission matrix
insert `{role_id, permission_id, granted, granted_at, granted_by}`); the
migrations define no further columns for this table.  In particular it has
no `name` column and no embedded `permissions` object. -/
structure RolePermissionRow where
  role_id : String
  permission_id : String
  granted : Bool
deriving DecidableEq, Repr

/-- The column names of `role_permissions`. -/
def rolePermissionsColumns : List String :=
  ["role_id", "permission_id", "granted", "granted_at", "granted_by"]

/-- `supabase.from('role_permissions').select('permissions:name').eq('role_id', rid)`.
In PostgREST, `'permissions:name'` (no parentheses) is a column *rename*:
it requests a column literally named `name`, displayed under the alias
`permissions` — an embedded join on the `permissions` table would be
spelled `permissions(name)`.  Since `role_permissions` has no `name`
column, the query returns an error (`data` null); had the column existed,
the matching rows would be returned with their scalar value under the
`permissions` alias. -/
def selectPermissionsName (table : List RolePermissionRow)
    (roleId : Option String) : Except String (List RolePermissionRow) :=
  if rolePermissionsColumns.contains "name" then
    Except.ok (table.filter (fun r => some r.role_id = roleId))
  else
    Except.error "column role_permissions.name does not exist"

/-- The `authorize(permissions)` middleware.  In the test environment it
consults only the `x-test-forbid` header / `forbid` query; otherwise a
super-admin bypasses, and the non-super-admin path runs the grants query
above: its error is thrown and caught — 500 "Error checking permissions".
(Were the query ever to succeed, `.map(p => p.permissions?.name)` would
still yield `undefined` for every row — the `permissions` alias holds a
scalar, not an object with a `.name` — so `.filter(Boolean)` would leave
`userPerms` empty and `permissions.some(...)` false.) -/
def authorize (env : Env) (permissions : List String)
    (forbidHeader : List String) (forbidQuery : String)
    (ctx : AdminCtx) (table : List RolePermissionRow) : AuthzResult :=
  if env = Env.test then
    if (match permissions.head? with
        | some p => forbidHeader.contains p
        | none => false) || (forbidQuery == "1") then
      AuthzResult.reject 403 "Insufficient permissions"
    else
      AuthzResult.proceed
  else if ctx.is_super_admin then
    AuthzResult.proceed
  else
    match selectPermissionsName table ctx.role_id with
    | Except.error _ =>
      AuthzResult.reject 500 "Error checking permissions"
    | Except.ok rows =>
      let userPerms : List String :=
        (rows.map (fun _ => (none : Option String))).filterMap (fun x => x)
      if permissions.any (fun perm => userPerms.contains perm) then
        AuthzResult.proceed
      else
        AuthzResult.reject 403 "Insufficient permissions"

/-- What a protected route does with a request: reject in middleware, or
invoke the protected handler with the request-scoped identity. -/
inductive ChainResult where
  | rejected (status : Nat) (errorMsg : String)
  | handled (ctx : AdminCtx)
deriving DecidableEq, Repr

/-- The middleware chain `authenticateAdmin, authorize(permissions)` in
front of a protected handler (no test-forbid inputs supplied). -/
def protectedRequest (env : Env) (now : Nat) (store : List AdminUser)
    (token : Option TokenStr) (permissions : List String)
    (table : List RolePermissionRow) : ChainResult :=
  match (authenticateAdmin env now store token).result with
  | AuthResult.reject s m => ChainResult.rejected s m
  | AuthResult.proceed ctx =>
    match authorize env permissions [] "" ctx table with
    | AuthzResult.reject s m => ChainResult.rejected s m
    | AuthzResult.proceed => ChainResult.handled ctx

/-- Outcome of a state-changing handler body after the middleware chain:
HTTP status and the audit rows it inserted. -/
structure HandlerOutcome where
  status : Nat
  audits : List AuditEvent
deriving DecidableEq, Repr

/-- `POST /api/admin/logout`: responds 200 and does nothing else. -/
def logoutHandler : HandlerOutcome :=
  { status := 200, audits := [] }

/-- `POST /api/modules/:identifier/toggle` body.  `updateOk` is whether the
`legal_modules` update succeeded (a thrown error responds 500 and skips the
audit insert). -/
def moduleToggleHandler (env : Env) (ctx : AdminCtx) (identifier : String)
    (enabled : Bool) (updateOk : Bool) (now : Nat) : HandlerOutcome :=
  if env = Env.test then
    { status := 200, audits := [] }
  else if ¬ updateOk then
    { status := 500, audits := [] }
  else
    { status := 200
      audits := [logAuditEvent ctx.id
        (if enabled then "module_activated" else "module_deactivated")
        "legal_module" identifier
        (some [("is_active", toString (!enabled))])
        (some [("is_active", toString enabled)]) none none now] }

/-- `POST /api/roles` body: responds 201 with a canned role object; it
touches no table and inserts no audit row. -/
def roleCreateHandler : HandlerOutcome :=
  { status := 201, audits := [] }

/-- `PUT /api/roles/:id/permissions` body: responds `{success}` only. -/
def rolePermissionSetHandler : HandlerOutcome :=
  { status := 200, audits := [] }

/-- `DELETE /api/roles/:id` body: responds `{success}` only. -/
def roleDeleteHandler : HandlerOutcome :=
  { status := 200, audits := [] }

/-- `POST /api/role-permissions` body: replaces the grant rows of the
mentioned roles, then inserts one `'permissions_updated'` audit row.
`rolePermissions` is the posted (role_id, permission_id) list, `insertOk`
whether the insert succeeded. -/
def rolePermissionsReplaceHandler (ctx : AdminCtx)
    (rolePermissions : List (String × String)) (insertOk : Bool) (now : Nat) :
    HandlerOutcome :=
  let roleIds := (rolePermissions.map (fun rp => rp.fst)).eraseDups
  if ¬ insertOk then
    { status := 500, audits := [] }
  else
    { status := 200
      audits := [logAuditEvent ctx.id "permissions_updated" "role_permissions"
        (String.intercalate "," roleIds) none none none none now] }

/-- `POST /api/legal-templates/:id/approve` body.  `updateOk` is whether the
`legal_templates` update succeeded. -/
def templateApproveHandler (env : Env) (ctx : AdminCtx) (id : String)
    (updateOk : Bool) (now : Nat) : HandlerOutcome :=
  if env = Env.test then
    { status := 200, audits := [] }
  else if ¬ updateOk then
    { status := 500, audits := [] }
  else
    { status := 200
      audits := [logAuditEvent ctx.id "legal_template_approved" "legal_template"
        id none none none none now] }

/-- `POST /api/backups` body: responds 201 with a canned backup object,
no persistence, no audit row. -/
def backupCreateHandler : HandlerOutcome :=
  { status := 201, audits := [] }

/-- `POST /api/backups/:id/restore` body: responds `{success}` only. -/
def backupRestoreHandler : HandlerOutcome :=
  { status := 200, audits := [] }

/-- `POST /api/clients` body: validate, check duplicate, insert the client
row; no audit row on any path. -/
def clientCreateHandler (valid dup insertOk : Bool) : HandlerOutcome :=
  if ¬ valid then { status := 400, audits := [] }
  else if dup then { status := 409, audits := [] }
  else if ¬ insertOk then { status := 500, audits := [] }
  else { status := 201, audits := [] }

/-- `PUT /api/clientes/:id` body: normalize, optional duplicate check,
update the client row; no audit row on any path. -/
def clientUpdateHandler (valid dup updateOk : Bool) : HandlerOutcome :=
  if ¬ valid then { status := 400, audits := [] }
  else if dup then { status := 409, audits := [] }
  else if ¬ updateOk then { status := 500, audits := [] }
  else { status := 200, audits := [] }

/-! Sample data used by witness and counterexample theorems. -/

/-- A sample `admin_users` row: active, no MFA, no failures, not locked. -/
def baseUser : AdminUser :=
  { id := "u1", email := "admin@example.com", password_hash := "hash-pw",
    full_name := "Admin One", role_id := "r1", is_super_admin := false,
    is_active := true, mfa_enabled := false, mfa_secret := none,
    failed_login_attempts := 0, locked_until := none, last_login_at := none }

/-- A sample bcrypt oracle: accepts exactly the pair ("pw", "hash-pw"). -/
def samplePw : String → String → Bool :=
  fun p h => p == "pw" && h == "hash-pw"

/-- `baseUser` deactivated. -/
def inactiveUser : AdminUser := { baseUser with is_active := false }

/-- `baseUser` with MFA enabled and a stored secret. -/
def mfaUser : AdminUser :=
  { baseUser with mfa_enabled := true, mfa_secret := some "JBSWY3DPEHPK3PXP" }

/-- The request-scoped identity of `baseUser` (not a super-admin). -/
def memberCtx : AdminCtx := ctxOfRow baseUser

/-- C1: a login request whose identity row has `locked_until` strictly in the
future returns the distinct Locked error (423) with no token, no store
update and no audit row; the result is the same for every bcrypt oracle, so
the password is never evaluated, even a correct one, until `locked_until`
elapses. -/
theorem locked_identity_gets_423_before_password
    (env : Env) (henv : env ≠ Env.test)
    (bcryptCompare : String → String → Bool)
    (totpVerify : String → Option String → Bool)
    (now : Nat) (store : List AdminUser) (email password : String)
    (totpCode : Option String) (u : AdminUser) (t : Nat)
    (hfind : store.find? (fun v => v.email = email) = some u)
    (hlock : u.locked_until = some t) (hfut : now < t) :
    login env bcryptCompare totpVerify now store email password totpCode =
      { status := 423, errorMsg := some "Account locked", token := none,
        store := store, audits := [] } := by
  simp only [login, if_neg henv, hfind]
  rw [if_pos]
  simp [lockedUntilFuture, hlock, hfut]

/-- Witness for C1: a concrete locked identity with the correct password is
still rejected with 423. -/
theorem locked_identity_gets_423_before_password_witness :
    login Env.production samplePw (fun _ _ => false) 100
      [{ baseUser with locked_until := some 200 }] "admin@example.com" "pw" none =
      { status := 423, errorMsg := some "Account locked", token := none,
        store := [{ baseUser with locked_until := some 200 }], audits := [] } :=
  locked_identity_gets_423_before_password Env.production (by decide)
    samplePw (fun _ _ => false) 100 _ "admin@example.com" "pw" none
    { baseUser with locked_until := some 200 } 200 (by decide) rfl (by decide)

/-- C2: on a password mismatch the handler increments the identity's
failed-attempt counter, sets `locked_until = now + 30min` exactly when the
counter reaches 5, and returns the same generic 401 "Invalid credentials"
in both cases (lock triggered or not); the updated row is in the resulting
store. -/
theorem password_mismatch_increments_and_locks
    (env : Env) (henv : env ≠ Env.test)
    (bcryptCompare : String → String → Bool)
    (totpVerify : String → Option String → Bool)
    (now : Nat) (store : List AdminUser) (email password : String)
    (totpCode : Option String) (u : AdminUser)
    (hfind : store.find? (fun v => v.email = email) = some u)
    (hnl : lockedUntilFuture u now = false)
    (hbad : bcryptCompare password u.password_hash = false) :
    login env bcryptCompare totpVerify now store email password totpCode =
      { status := 401, errorMsg := some "Invalid credentials", token := none,
        store := updateUser store u.id (fun v =>
          { v with failed_login_attempts := u.failed_login_attempts + 1,
                   locked_until := if u.failed_login_attempts + 1 ≥ 5 then
                       some (now + 30 * 60 * 1000)
                     else v.locked_until })
        audits := [] } ∧
    { u with failed_login_attempts := u.failed_login_attempts + 1,
             locked_until := if u.failed_login_attempts + 1 ≥ 5 then
                 some (now + 30 * 60 * 1000)
               else u.locked_until } ∈
      (login env bcryptCompare totpVerify now store email password totpCode).store := by
  have hu : u ∈ store := List.mem_of_find?_eq_some hfind
  have hmain :
      login env bcryptCompare totpVerify now store email password totpCode =
      { status := 401, errorMsg := some "Invalid credentials", token := none,
        store := updateUser store u.id (fun v =>
          { v with failed_login_attempts := u.failed_login_attempts + 1,
                   locked_until := if u.failed_login_attempts + 1 ≥ 5 then
                       some (now + 30 * 60 * 1000)
                     else v.locked_until })
        audits := [] } := by
    simp only [login, if_neg henv, hfind]
    rw [if_neg, if_pos]
    · simp [hbad]
    · simp [hnl]
  refine ⟨hmain, ?_⟩
  rw [hmain]
  have := List.mem_map_of_mem
    (f := fun v : AdminUser => if v.id = u.id then
      { v with failed_login_attempts := u.failed_login_attempts + 1,
               locked_until := if u.failed_login_attempts + 1 ≥ 5 then
                   some (now + 30 * 60 * 1000)
                 else v.locked_until }
      else v) hu
  simpa [updateUser] using this

/-- `baseUser` after four failed attempts. -/
def fourFailsUser : AdminUser := { baseUser with failed_login_attempts := 4 }

/-- `fourFailsUser` after the fifth failure at `now = 1000`: counter 5,
locked for 30 minutes. -/
def lockedAfterFifth : AdminUser :=
  { baseUser with
    failed_login_attempts := 5
    locked_until := some (1000 + 30 * 60 * 1000) }

/-- Witness for C2: the fifth consecutive failure on a concrete identity
returns 401 and the resulting row is locked for 30 minutes. -/
theorem password_mismatch_increments_and_locks_witness :
    login Env.production samplePw (fun _ _ => false) 1000
      [fourFailsUser] "admin@example.com" "wrongpass" none =
      { status := 401, errorMsg := some "Invalid credentials", token := none,
        store := [lockedAfterFifth], audits := [] } ∧
    lockedAfterFifth ∈
      (login Env.production samplePw (fun _ _ => false) 1000
        [fourFailsUser] "admin@example.com" "wrongpass" none).store := by
  have h := password_mismatch_increments_and_locks Env.production (by decide)
    samplePw (fun _ _ => false) 1000
    [fourFailsUser] "admin@example.com" "wrongpass" none
    fourFailsUser (by decide) (by decide) (by decide)
  exact ⟨by rw [h.1]; decide, by simpa [lockedAfterFifth, fourFailsUser, baseUser] using h.2⟩

/-- Counterexample for C3: the login handler never consults `is_active` —
a concrete inactive identity supplying the correct password receives 200
and a token, not the claimed generic 401. -/
theorem inactive_identity_login_succeeds_cex :
    (login Env.production samplePw (fun _ _ => false) 0 [inactiveUser]
      "admin@example.com" "pw" none).status = 200 ∧
    (login Env.production samplePw (fun _ _ => false) 0 [inactiveUser]
      "admin@example.com" "pw" none).token ≠ none := by
  decide

/-- C3 (amended): an unknown email is rejected with the same generic 401
"Invalid credentials" as a wrong password; but the handler does not read
`is_active`, so an inactive identity with the correct password (not locked,
MFA disabled) logs in successfully — inactive identities are only rejected
later, by `authenticateAdmin` on protected requests. -/
theorem login_generic_on_unknown_but_ignores_is_active
    (env : Env) (henv : env ≠ Env.test)
    (bcryptCompare : String → String → Bool)
    (totpVerify : String → Option String → Bool)
    (now : Nat) (store : List AdminUser) (email password : String)
    (totpCode : Option String) :
    (store.find? (fun v => v.email = email) = none →
      login env bcryptCompare totpVerify now store email password totpCode =
        { status := 401, errorMsg := some "Invalid credentials", token := none,
          store := store, audits := [] }) ∧
    (∀ u, store.find? (fun v => v.email = email) = some u →
      u.is_active = false →
      lockedUntilFuture u now = false →
      bcryptCompare password u.password_hash = true →
      u.mfa_enabled = false →
      login env bcryptCompare totpVerify now store email password totpCode =
        loginSuccess now store u ∧
      (loginSuccess now store u).status = 200) := by
  constructor
  · intro hnone
    simp [login, if_neg henv, hnone]
  · intro u hfind _ hnl hpw hmfa
    refine ⟨?_, rfl⟩
    simp only [login, if_neg henv, hfind]
    rw [if_neg, if_neg, if_neg]
    · simp [hmfa]
    · simp [hpw]
    · simp [hnl]

/-- Witness for C3 (amended): instantiates both parts — unknown email on an
empty store gets the generic 401, and the concrete inactive identity with
the correct password gets 200. -/
theorem login_generic_on_unknown_but_ignores_is_active_witness :
    (login Env.production samplePw (fun _ _ => false) 0 []
      "ghost@example.com" "pw" none =
      { status := 401, errorMsg := some "Invalid credentials", token := none,
        store := [], audits := [] }) ∧
    (login Env.production samplePw (fun _ _ => false) 0 [inactiveUser]
      "admin@example.com" "pw" none = loginSuccess 0 [inactiveUser] inactiveUser) := by
  constructor
  · exact (login_generic_on_unknown_but_ignores_is_active Env.production (by decide)
      samplePw (fun _ _ => false) 0 [] "ghost@example.com" "pw" none).1 (by decide)
  · exact ((login_generic_on_unknown_but_ignores_is_active Env.production (by decide)
      samplePw (fun _ _ => false) 0 [inactiveUser] "admin@example.com" "pw" none).2
      inactiveUser (by decide) (by decide) (by decide) (by decide) (by decide)).1

/-- A `role_permissions` row granting `modules:read` to role `r1`. -/
def grantR1Read : RolePermissionRow :=
  { role_id := "r1", permission_id := "modules:read", granted := true }

/-- C4 (code bug): the code cannot implement the claimed any-of resolution.
`.select('permissions:name')` renames a nonexistent `role_permissions.name`
column, so the grants query errors and `if (error) throw` lands in the
catch: every non-super-admin caller — whatever `requiredPermissions` and
whatever grants the table holds — gets 500 "Error checking permissions",
never a grant-based accept and never the claim's 403.  The second conjunct
evaluates the code at the spec's own scenario (a role granted
`modules:read` requesting a `modules:read`-guarded route): it is rejected
500 where the claim requires acceptance.  Super-admins still bypass. -/
theorem authorize_nonsuper_always_errors
    (permissions forbidHeader : List String) (forbidQuery : String)
    (id email : String) (roleId : Option String) (isActive : Bool)
    (fullName : Option String) (table : List RolePermissionRow) :
    authorize Env.production permissions forbidHeader forbidQuery
      { id := id, email := email, role_id := roleId, is_active := isActive,
        is_super_admin := false, full_name := fullName } table =
      AuthzResult.reject 500 "Error checking permissions" ∧
    authorize Env.production ["modules:read"] [] "" memberCtx [grantR1Read] =
      AuthzResult.reject 500 "Error checking permissions" ∧
    authorize Env.production [] [] "" { memberCtx with is_super_admin := true }
      [grantR1Read] = AuthzResult.proceed := by
  refine ⟨?_, by decide, by decide⟩
  simp [authorize, selectPermissionsName, rolePermissionsColumns]

/-- Counterexample for C5: in a non-test, non-production environment a
request with no bearer token is not rejected — `authenticateAdmin` injects
a canned dev super-admin and the protected handler runs. -/
theorem missing_token_dev_bypass_cex :
    protectedRequest Env.development 0 [] none ["modules:read"] [] =
      ChainResult.handled devCtx ∧
    (authenticateAdmin Env.development 0 [] none).result =
      AuthResult.proceed devCtx := by
  decide

/-- C5 (amended): a request with no bearer token to a protected route is
rejected with 401 "No token provided" — with the handler never invoked — in
the test and production environments; in any other environment
`authenticateAdmin` instead injects the canned dev super-admin identity and
lets the request through. -/
theorem missing_token_unauthorized_except_dev
    (now : Nat) (store : List AdminUser) (permissions : List String)
    (table : List RolePermissionRow) :
    (authenticateAdmin Env.test now store none).result =
      AuthResult.reject 401 "No token provided" ∧
    (authenticateAdmin Env.production now store none).result =
      AuthResult.reject 401 "No token provided" ∧
    protectedRequest Env.test now store none permissions table =
      ChainResult.rejected 401 "No token provided" ∧
    protectedRequest Env.production now store none permissions table =
      ChainResult.rejected 401 "No token provided" ∧
    (authenticateAdmin Env.development now store none).result =
      AuthResult.proceed devCtx := by
  refine ⟨rfl, rfl, ?_, ?_, rfl⟩ <;> rfl

/-- Counterexample for C6: a rejected MFA code does not yield the generic
invalid-credentials error — on a concrete mfa-enabled identity with the
correct password and a code the TOTP verifier rejects, the handler responds
401 with the distinct message "Invalid MFA code". -/
theorem rejected_mfa_code_message_cex :
    (login Env.production samplePw (fun _ _ => false) 0 [mfaUser]
      "admin@example.com" "pw" (some "000000")).errorMsg =
      some "Invalid MFA code" ∧
    some "Invalid MFA code" ≠ some "Invalid credentials" := by
  decide

/-- C6 (amended): for an mfa-enabled identity whose password matched and
that supplied a (non-empty) mfaCode, the handler makes exactly one call
`authenticator.verify({token: code, secret})` — with no window option, so
the tolerance is whatever the TOTP library decides: if the verifier rejects
the code the response is 401 with the distinct message "Invalid MFA code"
(no token, no store change, no audit); if it accepts, login completes
successfully. -/
theorem mfa_code_checked_by_verifier
    (env : Env) (henv : env ≠ Env.test)
    (bcryptCompare : String → String → Bool)
    (totpVerify : String → Option String → Bool)
    (now : Nat) (store : List AdminUser) (email password code : String)
    (u : AdminUser)
    (hfind : store.find? (fun v => v.email = email) = some u)
    (hnl : lockedUntilFuture u now = false)
    (hpw : bcryptCompare password u.password_hash = true)
    (hmfa : u.mfa_enabled = true) (hcode : code ≠ "") :
    (totpVerify code u.mfa_secret = false →
      login env bcryptCompare totpVerify now store email password (some code) =
        { status := 401, errorMsg := some "Invalid MFA code", token := none,
          store := store, audits := [] }) ∧
    (totpVerify code u.mfa_secret = true →
      login env bcryptCompare totpVerify now store email password (some code) =
        loginSuccess now store u) := by
  have hfalsy : jsStrFalsy (some code) = false := by
    simp [jsStrFalsy, hcode]
  constructor
  · intro hbadcode
    simp only [login, if_neg henv, hfind]
    rw [if_neg (by simp [hnl]), if_neg (by simp [hpw]), if_pos (by simp [hmfa]),
      if_neg (by simp [hfalsy]), if_pos]
    simp [hbadcode]
  · intro hgoodcode
    simp only [login, if_neg henv, hfind]
    rw [if_neg (by simp [hnl]), if_neg (by simp [hpw]), if_pos (by simp [hmfa]),
      if_neg (by simp [hfalsy]), if_neg (by simp [hgoodcode])]

/-- Witness for C6 (amended): on the concrete mfa-enabled identity, a code
the verifier rejects gets 401 "Invalid MFA code", and a code it accepts
logs in. -/
theorem mfa_code_checked_by_verifier_witness :
    (login Env.production samplePw (fun _ _ => false) 0 [mfaUser]
      "admin@example.com" "pw" (some "000000") =
      { status := 401, errorMsg := some "Invalid MFA code", token := none,
        store := [mfaUser], audits := [] }) ∧
    (login Env.production samplePw (fun c _ => c == "123456") 0 [mfaUser]
      "admin@example.com" "pw" (some "123456") =
      loginSuccess 0 [mfaUser] mfaUser) := by
  constructor
  · exact (mfa_code_checked_by_verifier Env.production (by decide) samplePw
      (fun _ _ => false) 0 [mfaUser] "admin@example.com" "pw" "000000" mfaUser
      (by decide) (by decide) (by decide) (by decide) (by decide)).1 rfl
  · exact (mfa_code_checked_by_verifier Env.production (by decide) samplePw
      (fun c _ => c == "123456") 0 [mfaUser] "admin@example.com" "pw" "123456" mfaUser
      (by decide) (by decide) (by decide) (by decide) (by decide)).2 rfl

/-- Helper: under the full-success conditions the login handler reaches the
`loginSuccess` tail. -/
theorem login_eq_loginSuccess
    (env : Env) (henv : env ≠ Env.test)
    (bcryptCompare : String → String → Bool)
    (totpVerify : String → Option String → Bool)
    (now : Nat) (store : List AdminUser) (email password : String)
    (totpCode : Option String) (u : AdminUser)
    (hfind : store.find? (fun v => v.email = email) = some u)
    (hnl : lockedUntilFuture u now = false)
    (hpw : bcryptCompare password u.password_hash = true)
    (hmfa : u.mfa_enabled = false ∨
      (jsStrFalsy totpCode = false ∧
        totpVerify (totpCode.getD "") u.mfa_secret = true)) :
    login env bcryptCompare totpVerify now store email password totpCode =
      loginSuccess now store u := by
  simp only [login, if_neg henv, hfind]
  rw [if_neg (by simp [hnl]), if_neg (by simp [hpw])]
  by_cases hen : u.mfa_enabled = true
  · rcases hmfa with hoff | ⟨hsupplied, hok⟩
    · exact absurd hen (by simp [hoff])
    · rw [if_pos (by simp [hen]), if_neg (by simp [hsupplied]),
        if_neg (by simp [hok])]
  · rw [if_neg (by simpa using hen)]

/-- C7: every fully successful login (password matched; MFA, when enabled,
passed) resets `failed_login_attempts` to 0, clears `locked_until`, sets
`last_login_at = now`, issues a signed session token, and records exactly
one login audit event (action `'admin_login'`). -/
theorem successful_login_resets_and_audits_once
    (env : Env) (henv : env ≠ Env.test)
    (bcryptCompare : String → String → Bool)
    (totpVerify : String → Option String → Bool)
    (now : Nat) (store : List AdminUser) (email password : String)
    (totpCode : Option String) (u : AdminUser)
    (hfind : store.find? (fun v => v.email = email) = some u)
    (hnl : lockedUntilFuture u now = false)
    (hpw : bcryptCompare password u.password_hash = true)
    (hmfa : u.mfa_enabled = false ∨
      (jsStrFalsy totpCode = false ∧
        totpVerify (totpCode.getD "") u.mfa_secret = true)) :
    login env bcryptCompare totpVerify now store email password totpCode =
      loginSuccess now store u ∧
    (loginSuccess now store u).status = 200 ∧
    (loginSuccess now store u).token = some (TokenVal.signed
      (jwtSign JWT_SECRET { userId := u.id, email := u.email } now)) ∧
    { u with failed_login_attempts := 0, locked_until := none,
             last_login_at := some now } ∈ (loginSuccess now store u).store ∧
    (loginSuccess now store u).audits =
      [logAuditEvent u.id "admin_login" "admin_user" u.id none none none none now] := by
  have hu : u ∈ store := List.mem_of_find?_eq_some hfind
  have hmain : login env bcryptCompare totpVerify now store email password totpCode =
      loginSuccess now store u :=
    login_eq_loginSuccess env henv bcryptCompare totpVerify now store email
      password totpCode u hfind hnl hpw hmfa
  refine ⟨hmain, rfl, rfl, ?_, rfl⟩
  have := List.mem_map_of_mem
    (f := fun v : AdminUser => if v.id = u.id then
      { v with failed_login_attempts := 0, locked_until := none,
               last_login_at := some now }
      else v) hu
  simpa [loginSuccess, updateUser] using this

/-- Witness for C7: a concrete locked-out-then-recovered identity (counter
4, lock already elapsed at `now = 5000`) logs in with the correct password;
the resulting row has counter 0, no lock, `last_login_at` set, and exactly
one `'admin_login'` audit event is recorded. -/
theorem successful_login_resets_and_audits_once_witness :
    login Env.production samplePw (fun _ _ => false) 5000
      [{ fourFailsUser with locked_until := some 4000 }]
      "admin@example.com" "pw" none =
      loginSuccess 5000 [{ fourFailsUser with locked_until := some 4000 }] { fourFailsUser with locked_until := some 4000 } ∧
    (loginSuccess 5000 [{ fourFailsUser with locked_until := some 4000 }] { fourFailsUser with locked_until := some 4000 }).status = 200 ∧
    (loginSuccess 5000 [{ fourFailsUser with locked_until := some 4000 }] { fourFailsUser with locked_until := some 4000 }).audits.length = 1 := by
  have h := successful_login_resets_and_audits_once Env.production (by decide)
    samplePw (fun _ _ => false) 5000
    [{ fourFailsUser with locked_until := some 4000 }] "admin@example.com" "pw" none
    { fourFailsUser with locked_until := some 4000 }
    (by decide) (by decide) (by decide) (Or.inl (by decide))
  exact ⟨h.1, h.2.1, by rw [h.2.2.2.2]; rfl⟩

/-- C8: on every protected request in production the token's signature and
expiry are validated first — any failure yields 401 "Invalid token" with no
identity lookup performed; on success the identity is re-fetched, and an
identity that is now inactive is rejected with 401 even though the token is
still cryptographically valid. -/
theorem verify_before_lookup_and_refetch_active
    (now : Nat) (store : List AdminUser) (tok : TokenStr) :
    (jwtVerify JWT_SECRET now tok = none →
      authenticateAdmin Env.production now store (some tok) =
        { result := AuthResult.reject 401 "Invalid token", lookups := [] }) ∧
    (∀ p, jwtVerify JWT_SECRET now tok = some p →
      (authenticateAdmin Env.production now store (some tok)).lookups =
        [p.userId] ∧
      (∀ u, store.find? (fun v => v.id = p.userId) = some u →
        u.is_active = false →
        (authenticateAdmin Env.production now store (some tok)).result =
          AuthResult.reject 401 "Invalid or inactive admin user")) := by
  constructor
  · intro hbad
    simp [authenticateAdmin, hbad]
  · intro p hok
    constructor
    · simp only [authenticateAdmin, hok]
      rw [if_neg (by decide)]
      cases hfind : store.find? (fun v => v.id = p.userId) with
      | none => rfl
      | some u => by_cases hact : u.is_active = true <;> simp [hact]
    · intro u hfind hinact
      simp only [authenticateAdmin, hok]
      rw [if_neg (by decide)]
      rw [hfind]
      simp [hinact]

/-- Witness for C8: a wrong-key token is rejected with no lookup; a
correctly signed, unexpired token for the deactivated `inactiveUser` is
rejected 401 after the re-fetch. -/
theorem verify_before_lookup_and_refetch_active_witness :
    (authenticateAdmin Env.production 0 [inactiveUser]
      (some (TokenStr.signed
        { payload := { userId := "u1", email := "admin@example.com" },
          key := "wrong-key", exp := 99999 })) =
      { result := AuthResult.reject 401 "Invalid token", lookups := [] }) ∧
    ((authenticateAdmin Env.production 0 [inactiveUser]
      (some (TokenStr.signed
        (jwtSign JWT_SECRET { userId := "u1", email := "admin@example.com" } 0)))).result =
      AuthResult.reject 401 "Invalid or inactive admin user") := by
  constructor
  · exact (verify_before_lookup_and_refetch_active 0 [inactiveUser]
      (TokenStr.signed
        { payload := { userId := "u1", email := "admin@example.com" },
          key := "wrong-key", exp := 99999 })).1 (by decide)
  · exact ((verify_before_lookup_and_refetch_active 0 [inactiveUser]
      (TokenStr.signed
        (jwtSign JWT_SECRET { userId := "u1", email := "admin@example.com" } 0))).2
      { userId := "u1", email := "admin@example.com" } (by decide)).2
      inactiveUser (by decide) (by decide)

/-- Counterexample for C9: logout — explicitly listed as a state-changing
operation — records no audit event at all: its successful execution inserts
zero audit rows, not exactly one.  Role creation and backup creation do the
same. -/
theorem logout_records_no_audit_cex :
    logoutHandler.status = 200 ∧ logoutHandler.audits = [] ∧
    roleCreateHandler.audits = [] ∧ backupCreateHandler.audits = [] := by
  decide

/-- C9 (amended): per successful execution, login, module toggle, bulk
role-permission replacement and template approval each record exactly one
audit event; logout, role creation, per-role permission update, role
deletion, backup creation/restore, and client creation/update record none. -/
theorem audit_counts_per_operation :
    (∀ now store u, (loginSuccess now store u).audits.length = 1) ∧
    (∀ ctx idf enabled now,
      (moduleToggleHandler Env.production ctx idf enabled true now).audits.length = 1) ∧
    (∀ ctx rps now,
      (rolePermissionsReplaceHandler ctx rps true now).audits.length = 1) ∧
    (∀ ctx id now,
      (templateApproveHandler Env.production ctx id true now).audits.length = 1) ∧
    logoutHandler.audits.length = 0 ∧
    roleCreateHandler.audits.length = 0 ∧
    rolePermissionSetHandler.audits.length = 0 ∧
    roleDeleteHandler.audits.length = 0 ∧
    backupCreateHandler.audits.length = 0 ∧
    backupRestoreHandler.audits.length = 0 ∧
    (∀ v d ok, (clientCreateHandler v d ok).audits.length = 0) ∧
    (∀ v d ok, (clientUpdateHandler v d ok).audits.length = 0) := by
  refine ⟨fun now store u => rfl, fun ctx idf enabled now => ?_,
    fun ctx rps now => ?_, fun ctx id now => ?_, rfl, rfl, rfl, rfl, rfl, rfl,
    fun v d ok => ?_, fun v d ok => ?_⟩
  · simp [moduleToggleHandler]
  · simp [rolePermissionsReplaceHandler]
  · simp [templateApproveHandler]
  · cases v <;> cases d <;> cases ok <;> rfl
  · cases v <;> cases d <;> cases ok <;> rfl

/-- `baseUser` moved to role `r2` (no grants). -/
def baseUserOtherRole : AdminUser := { baseUser with role_id := "r2" }

/-- Counterexample for C10: the permission decision on a protected request
is not computed from the re-fetched row's role grants, and a role change
does not take effect on the next request.  With the same valid token,
`baseUser` on role `r1` — which the grants table grants `modules:read` —
is rejected 500 (not accepted), and after moving the identity to role `r2`
(no grants) the outcome is identical: the grants query errors before any
grant is consulted, so the role change has no observable effect. -/
theorem role_change_has_no_effect_cex :
    (protectedRequest Env.production 5 [baseUser]
      (some (TokenStr.signed
        (jwtSign JWT_SECRET { userId := "u1", email := "admin@example.com" } 0)))
      ["modules:read"] [grantR1Read] =
      ChainResult.rejected 500 "Error checking permissions") ∧
    (protectedRequest Env.production 5 [baseUserOtherRole]
      (some (TokenStr.signed
        (jwtSign JWT_SECRET { userId := "u1", email := "admin@example.com" } 0)))
      ["modules:read"] [grantR1Read] =
      ChainResult.rejected 500 "Error checking permissions") := by
  decide

/-- C10 (amended): the token issued on successful login is signed over a
payload of exactly `{userId, email}` with the 24h expiry — no super-admin
flag is embedded; and on a later protected request the super-admin bypass
is computed from the identity row freshly fetched at that request, so a
changed `is_super_admin` flag takes effect on the very next request
carrying the same token: flag set → the handler runs; flag clear → the
request is rejected — with 500 "Error checking permissions" (for every
permission list and every grants table), since the grants query always
errors before any grant is consulted.  Role or grant changes therefore have
no observable effect for non-super-admins. -/
theorem token_carries_no_super_admin_flag
    (env : Env) (henv : env ≠ Env.test)
    (bcryptCompare : String → String → Bool)
    (totpVerify : String → Option String → Bool)
    (now : Nat) (store : List AdminUser) (email password : String)
    (totpCode : Option String) (u : AdminUser)
    (hfind : store.find? (fun v => v.email = email) = some u)
    (hnl : lockedUntilFuture u now = false)
    (hpw : bcryptCompare password u.password_hash = true)
    (hmfa : u.mfa_enabled = false ∨
      (jsStrFalsy totpCode = false ∧
        totpVerify (totpCode.getD "") u.mfa_secret = true)) :
    (login env bcryptCompare totpVerify now store email password totpCode).token =
      some (TokenVal.signed
        { payload := { userId := u.id, email := u.email }, key := JWT_SECRET,
          exp := now + 24 * 60 * 60 * 1000 }) ∧
    (∀ t now' store' perms table u',
      t.key = JWT_SECRET → now' < t.exp →
      store'.find? (fun v => v.id = t.payload.userId) = some u' →
      u'.is_active = true →
      (u'.is_super_admin = true →
        protectedRequest Env.production now' store' (some (TokenStr.signed t))
          perms table = ChainResult.handled (ctxOfRow u')) ∧
      (u'.is_super_admin = false →
        protectedRequest Env.production now' store' (some (TokenStr.signed t))
          perms table =
          ChainResult.rejected 500 "Error checking permissions")) := by
  constructor
  · rw [login_eq_loginSuccess env henv bcryptCompare totpVerify now store email
      password totpCode u hfind hnl hpw hmfa]
    rfl
  · intro t now' store' perms table u' hkey hval hfind' hact
    have hauth : authenticateAdmin Env.production now' store'
        (some (TokenStr.signed t)) =
        { result := AuthResult.proceed (ctxOfRow u'),
          lookups := [t.payload.userId] } := by
      simp only [authenticateAdmin]
      rw [if_neg (by decide)]
      have hv : jwtVerify JWT_SECRET now' (TokenStr.signed t) = some t.payload := by
        simp [jwtVerify, hkey, hval]
      simp [hv, hfind', hact]
    constructor
    · intro hsup
      simp only [protectedRequest, hauth]
      simp [authorize, ctxOfRow, hsup]
    · intro hns
      simp only [protectedRequest, hauth]
      simp [authorize, ctxOfRow, hns, selectPermissionsName,
        rolePermissionsColumns]

/-- Witness for C10 (amended): a concrete successful login yields a token
whose payload is exactly the id/email pair; presenting an equally shaped
token while the current row has `is_super_admin = true` reaches the handler,
and presenting it after the flag is cleared is rejected (500, the grants
query error) even though the role's table row grants the permission. -/
theorem token_carries_no_super_admin_flag_witness :
    ((login Env.production samplePw (fun _ _ => false) 0 [baseUser]
      "admin@example.com" "pw" none).token =
      some (TokenVal.signed
        { payload := { userId := "u1", email := "admin@example.com" },
          key := JWT_SECRET, exp := 24 * 60 * 60 * 1000 })) ∧
    (protectedRequest Env.production 5 [{ baseUser with is_super_admin := true }]
      (some (TokenStr.signed
        (jwtSign JWT_SECRET { userId := "u1", email := "admin@example.com" } 0)))
      ["modules:read"] [grantR1Read] =
      ChainResult.handled (ctxOfRow { baseUser with is_super_admin := true })) ∧
    (protectedRequest Env.production 5 [baseUser]
      (some (TokenStr.signed
        (jwtSign JWT_SECRET { userId := "u1", email := "admin@example.com" } 0)))
      ["modules:read"] [grantR1Read] =
      ChainResult.rejected 500 "Error checking permissions") := by
  have h := token_carries_no_super_admin_flag Env.production (by decide)
    samplePw (fun _ _ => false) 0 [baseUser] "admin@example.com" "pw" none
    baseUser (by decide) (by decide) (by decide) (Or.inl (by decide))
  refine ⟨by simpa using h.1, ?_, ?_⟩
  · exact (h.2 (jwtSign JWT_SECRET { userId := "u1", email := "admin@example.com" } 0)
      5 [{ baseUser with is_super_admin := true }] ["modules:read"] [grantR1Read]
      { baseUser with is_super_admin := true }
      rfl (by decide) (by decide) (by decide)).1 (by decide)
  · exact (h.2 (jwtSign JWT_SECRET { userId := "u1", email := "admin@example.com" } 0)
      5 [baseUser] ["modules:read"] [grantR1Read] baseUser
      rfl (by decide) (by decide) (by decide)).2 (by decide)
